import Mathlib

/-!
Verification of the Kobo-sync authentication module (`cps/kobo_auth.py`)
of calibre-web.

The module's operations are shallowly embedded:

* `RemoteAuthToken` models one row of the `remote_auth_token` table
  (`ub.RemoteAuthToken`): `user_id`, `auth_token` (the token value),
  `token_type`, and `expiration`.  Timestamps are modelled as `Nat`
  (microseconds); Python's `datetime.max` is the constant `datetime_max`.
* The token store (`ub.session` query surface over `RemoteAuthToken`)
  is a `List RemoteAuthToken`; SQLAlchemy's `.first()` on a filtered
  query is `List.find?`, bulk `.delete()` is `List.filter` with the
  negated predicate, `session.add` appends a row.
* Flask's per-request context `g` and the matched URL `values` mapping
  are association lists `List (String × String)`.
* Users are identified by their id: the `User`-`RemoteAuthToken` join of
  the resolver maps a token row to its owning user's id, and the
  resolver's result models both its return value and the `login_user`
  side effect (establishing the authenticated identity).
* `os.urandom(16)` is modelled by passing the drawn bytes as an explicit
  argument; `binascii.hexlify` is the function `hexlify`.
* Fallible code returns `Except`: Python's `dict.pop(key)` with no
  default raises `KeyError` when the key is absent, so `pop_auth_token`
  returns `Except String _`.
-/

namespace KoboAuth

/-- One row of the `remote_auth_token` table (`ub.RemoteAuthToken`). -/
structure RemoteAuthToken where
  user_id : Nat
  auth_token : String
  token_type : Nat
  expiration : Nat
deriving DecidableEq, Repr

/-- Python's `datetime.max` (9999-12-31 23:59:59.999999), as microseconds
from year 1: the maximum representable timestamp. -/
def datetime_max : Nat := 315537897599999999

/-- One lowercase hexadecimal digit, as produced by `binascii.hexlify`. -/
def hexDigit (n : Nat) : Char :=
  if n < 10 then Char.ofNat (48 + n) else Char.ofNat (97 + (n - 10))

/-- The character list of `binascii.hexlify(bytes)`: two lowercase hex
digits per byte, most significant nibble first. -/
def hexChars (bs : List Nat) : List Char :=
  bs.foldr (fun b acc => hexDigit (b / 16) :: hexDigit (b % 16) :: acc) []

/-- `binascii.hexlify(bytes).decode("utf-8")`. -/
def hexlify (bs : List Nat) : String :=
  String.mk (hexChars bs)

/-- The sixteen lowercase hexadecimal digit characters. -/
def lowerHexDigits : List Char :=
  "0123456789abcdef".data

/-- `pop_auth_token(endpoint, values)` (the `url_value_preprocessor`):
`g.auth_token = values.pop("auth_token")`.  `dict.pop` with no default
raises `KeyError` when the key is absent; on success it returns the
popped value (stashed into `g`) together with the remaining values. -/
def pop_auth_token (values : List (String × String)) :
    Except String (String × List (String × String)) :=
  match values.find? (fun kv => kv.fst == "auth_token") with
  | some kv => Except.ok (kv.snd, values.eraseP (fun kv2 => kv2.fst == "auth_token"))
  | none => Except.error "KeyError: auth_token"

/-- `get_auth_token()`: `return g.get("auth_token") if "auth_token" in g
else None`. -/
def get_auth_token (g : List (String × String)) : Option String :=
  if (g.find? (fun kv => kv.fst == "auth_token")).isSome then
    (g.find? (fun kv => kv.fst == "auth_token")).map Prod.snd
  else
    none

/-- `load_user_from_kobo_request(request)` (the `lm.request_loader`):
reads the stashed token; when present, queries the store for a row with
that token value and `token_type == 1` (`.first()`), returning its
owning user and logging in; otherwise falls through, emitting
`log.info(...)` and returning `None`.  The result is the resolved user
id (`none` = no identity) paired with whether the diagnostic log line
ran. -/
def load_user_from_kobo_request (store : List RemoteAuthToken)
    (g : List (String × String)) : Option Nat × Bool :=
  match get_auth_token g with
  | none => (none, true)
  | some t =>
    match store.find? (fun r => r.auth_token == t && r.token_type == 1) with
    | some r => (some r.user_id, false)
    | none => (none, true)

/-- `generate_auth_token(user_id)` (store effect and token value; the
rendered setup page is out of scope): look up an existing
`(user_id, token_type == 1)` row (`.first()`); if none, build a new row
with `auth_token = hexlify(urandom(16))`, `expiration = datetime.max`,
`token_type = 1`, and `session.add` + `commit` it.  `randBytes` are the
bytes drawn from `os.urandom(16)`.  Returns the committed store and the
token value embedded in the setup URL. -/
def generate_auth_token (store : List RemoteAuthToken) (user_id : Nat)
    (randBytes : List Nat) : List RemoteAuthToken × String :=
  match store.find? (fun r => r.user_id == user_id && r.token_type == 1) with
  | some r => (store, r.auth_token)
  | none =>
    let tok : RemoteAuthToken :=
      { user_id := user_id, auth_token := hexlify randBytes,
        token_type := 1, expiration := datetime_max }
    (store ++ [tok], tok.auth_token)

/-- `delete_auth_token(user_id)`: bulk-deletes every row with this
`user_id` and `token_type == 1`, then commits.  Returns the committed
store. -/
def delete_auth_token (store : List RemoteAuthToken) (user_id : Nat) :
    List RemoteAuthToken :=
  store.filter (fun r => !(r.user_id == user_id && r.token_type == 1))

/-- Store invariant (spec §3): token values are unique across the entire
store. -/
def uniqueTokenValues (store : List RemoteAuthToken) : Prop :=
  ∀ r1 ∈ store, ∀ r2 ∈ store, r1.auth_token = r2.auth_token → r1 = r2

/-- Store invariant (spec §3): at most one row per
`(user_id, token_type)` pair. -/
def atMostOnePerKey (store : List RemoteAuthToken) : Prop :=
  ∀ uid ttype : Nat,
    store.countP (fun r => r.user_id == uid && r.token_type == ttype) ≤ 1

/-- A store operation: token issuance (with the random bytes drawn for
it) or revocation. -/
inductive StoreOp where
  | issue (user_id : Nat) (randBytes : List Nat)
  | revoke (user_id : Nat)

/-- The store effect of one operation. -/
def applyOp (store : List RemoteAuthToken) : StoreOp → List RemoteAuthToken
  | StoreOp.issue uid bs => (generate_auth_token store uid bs).fst
  | StoreOp.revoke uid => delete_auth_token store uid

/-- The store effect of a sequence of operations. -/
def applyOps (store : List RemoteAuthToken) (ops : List StoreOp) :
    List RemoteAuthToken :=
  ops.foldl applyOp store

/-- A sample draw of 16 bytes, standing in for one output of
`os.urandom(16)` in concrete instantiations. -/
def sampleBytes : List Nat :=
  [0, 17, 34, 51, 68, 85, 102, 119, 136, 153, 170, 187, 204, 221, 238, 255]

/-! ### Helper lemmas -/

theorem hexChars_cons (b : Nat) (t : List Nat) :
    hexChars (b :: t) = hexDigit (b / 16) :: hexDigit (b % 16) :: hexChars t := rfl

theorem hexChars_length (bs : List Nat) : (hexChars bs).length = 2 * bs.length := by
  induction bs with
  | nil => rfl
  | cons b t ih => rw [hexChars_cons, List.length_cons, List.length_cons, ih,
      List.length_cons]; omega

theorem hexDigit_mem_lowerHex (n : Nat) (h : n < 16) : hexDigit n ∈ lowerHexDigits := by
  interval_cases n <;> decide

theorem hexChars_mem_lowerHex (bs : List Nat) (h : ∀ b ∈ bs, b < 256) :
    ∀ c ∈ hexChars bs, c ∈ lowerHexDigits := by
  induction bs with
  | nil => intro c hc; simp [hexChars] at hc
  | cons b t ih =>
    intro c hc
    rw [hexChars_cons] at hc
    have hb := h b (List.mem_cons_self b t)
    rcases List.mem_cons.1 hc with h1 | hc2
    · exact h1 ▸ hexDigit_mem_lowerHex _ (by omega)
    · rcases List.mem_cons.1 hc2 with h2 | h3
      · exact h2 ▸ hexDigit_mem_lowerHex _ (by omega)
      · exact ih (fun x hx => h x (List.mem_cons_of_mem b hx)) c h3

theorem find?_append_of_none {α : Type} (p : α → Bool) (l1 l2 : List α)
    (h : l1.find? p = none) : (l1 ++ l2).find? p = l2.find? p := by
  induction l1 with
  | nil => simp
  | cons a t ih =>
    rw [List.find?_eq_none] at h
    have hpa : p a = false := by
      have := h a (List.mem_cons_self a t)
      simp_all
    rw [List.cons_append, List.find?_cons_of_neg _ (by simp [hpa]), ih]
    rw [List.find?_eq_none]
    intro x hx
    exact h x (List.mem_cons_of_mem a hx)

/-! ### Claim theorems -/

/-- C1: a token value T stored with `token_type = 1` and owner U resolves a
request stashing T to exactly user U (under the unique-token-values store
invariant), establishing U as the authenticated identity. -/
theorem load_user_resolves_owner (store : List RemoteAuthToken)
    (g : List (String × String)) (r : RemoteAuthToken) (T : String)
    (hmem : r ∈ store) (hval : r.auth_token = T) (htype : r.token_type = 1)
    (huniq : uniqueTokenValues store) (hg : get_auth_token g = some T) :
    load_user_from_kobo_request store g = (some r.user_id, false) := by
  have hfind : (store.find? (fun x => x.auth_token == T && x.token_type == 1)).isSome := by
    apply List.find?_isSome.2
    exact ⟨r, hmem, by simp [hval, htype]⟩
  obtain ⟨r2, hr2⟩ := Option.isSome_iff_exists.1 hfind
  have hr2mem := List.mem_of_find?_eq_some hr2
  have hr2p := List.find?_some hr2
  simp only [Bool.and_eq_true, beq_iff_eq] at hr2p
  have hr2r : r2 = r := huniq r2 hr2mem r hmem (by rw [hr2p.1, hval])
  simp only [load_user_from_kobo_request, hg, hr2, hr2r]

/-- C1 witness. -/
theorem load_user_resolves_owner_witness :
    load_user_from_kobo_request [⟨7, "abc", 1, 0⟩] [("auth_token", "abc")]
      = (some 7, false) :=
  load_user_resolves_owner [⟨7, "abc", 1, 0⟩] [("auth_token", "abc")]
    ⟨7, "abc", 1, 0⟩ "abc" (by decide) rfl rfl
    (by unfold uniqueTokenValues; decide) rfl

/-- C2 counterexample: on a mapping without the "auth_token" key, the
extraction step raises `KeyError` (refuting "it yields token = None
instead of raising an error"). -/
theorem pop_auth_token_raises_on_missing_key :
    pop_auth_token [] = Except.error "KeyError: auth_token" := rfl

/-- C2 amended: the path-token extraction step succeeds exactly when the
"auth_token" key is present in the mapping of matched URL values; when the
key is absent it fails with a `KeyError` rather than yielding token = None. -/
theorem pop_auth_token_ok_iff_key_present (values : List (String × String)) :
    (pop_auth_token values).isOk = true ↔ "auth_token" ∈ values.map Prod.fst := by
  unfold pop_auth_token
  cases hfind : values.find? (fun kv => kv.fst == "auth_token") with
  | some kv =>
    simp only [Except.isOk, Except.toBool, true_iff]
    have hmem := List.mem_of_find?_eq_some hfind
    have hp := List.find?_some hfind
    simp only [beq_iff_eq] at hp
    exact List.mem_map.2 ⟨kv, hmem, hp⟩
  | none =>
    have hab : ¬ "auth_token" ∈ values.map Prod.fst := by
      intro hmem
      obtain ⟨kv, hkv, hfst⟩ := List.mem_map.1 hmem
      have := List.find?_eq_none.1 hfind kv hkv
      simp [hfst] at this
    simp [Except.isOk, Except.toBool, hab]

/-- C7: revoking for a user with no stored `(user_id, token_type = 1)` row
completes without error and leaves the store unchanged. -/
theorem delete_auth_token_noop (store : List RemoteAuthToken) (uid : Nat)
    (h : store.find? (fun r => r.user_id == uid && r.token_type == 1) = none) :
    delete_auth_token store uid = store := by
  unfold delete_auth_token
  rw [List.filter_eq_self]
  intro r hr
  have := List.find?_eq_none.1 h r hr
  simp only [Bool.not_eq_true] at this
  simp [this]

/-- C7 witness. -/
theorem delete_auth_token_noop_witness :
    delete_auth_token [⟨2, "x", 2, 0⟩] 2 = [⟨2, "x", 2, 0⟩] :=
  delete_auth_token_noop [⟨2, "x", 2, 0⟩] 2 (by decide)

/-- C8: a stashed token value matching no stored row with `token_type = 1`
resolves to no identity and emits the diagnostic log line, with no
exception raised (the resolver is a total read-only function of the
store). -/
theorem load_user_unknown_token (store : List RemoteAuthToken)
    (g : List (String × String)) (T : String)
    (hg : get_auth_token g = some T)
    (hno : ∀ r ∈ store, ¬(r.auth_token = T ∧ r.token_type = 1)) :
    load_user_from_kobo_request store g = (none, true) := by
  have hfind : store.find? (fun r => r.auth_token == T && r.token_type == 1) = none := by
    rw [List.find?_eq_none]
    intro x hx
    have := hno x hx
    simpa using this
  simp only [load_user_from_kobo_request, hg, hfind]

/-- C8 witness. -/
theorem load_user_unknown_token_witness :
    load_user_from_kobo_request [⟨5, "other", 1, 0⟩] [("auth_token", "zz")]
      = (none, true) :=
  load_user_unknown_token [⟨5, "other", 1, 0⟩] [("auth_token", "zz")] "zz"
    rfl (by decide)

/-- C9: a request with no stashed auth token resolves to no identity,
independently of the store contents (the store is never queried) and
without error. -/
theorem load_user_no_token (store : List RemoteAuthToken)
    (g : List (String × String))
    (hg : g.find? (fun kv => kv.fst == "auth_token") = none) :
    load_user_from_kobo_request store g = (none, true) := by
  simp [load_user_from_kobo_request, get_auth_token, hg]

/-- C9 witness. -/
theorem load_user_no_token_witness :
    load_user_from_kobo_request [⟨1, "zz", 1, 0⟩] [] = (none, true) :=
  load_user_no_token [⟨1, "zz", 1, 0⟩] [] rfl

/-- C10: revocation is framed to one user and token type: it deletes
exactly the rows with the given `user_id` and `token_type = 1`, keeping
every other row (a sublist of the original store, preserving order and
multiplicity). -/
theorem delete_auth_token_frame (store : List RemoteAuthToken) (uid : Nat) :
    List.Sublist (delete_auth_token store uid) store
    ∧ ∀ r : RemoteAuthToken,
        r ∈ delete_auth_token store uid
          ↔ r ∈ store ∧ ¬(r.user_id = uid ∧ r.token_type = 1) := by
  refine ⟨List.filter_sublist store, fun r => ?_⟩
  rw [delete_auth_token, List.mem_filter]
  simp only [Bool.not_eq_true', Bool.and_eq_false_iff, beq_eq_false_iff_ne, ne_eq,
    not_and]
  tauto

/-- C3: issuance is idempotent: a user with an existing type-1 token gets
that token's value back with the store unchanged (no rotation or
replacement), and two issuances without an intervening revocation return
the identical token value and store. -/
theorem generate_auth_token_idempotent (store : List RemoteAuthToken) (uid : Nat)
    (bs bs' : List Nat) :
    (∀ r, store.find? (fun x => x.user_id == uid && x.token_type == 1) = some r →
        generate_auth_token store uid bs = (store, r.auth_token))
    ∧ generate_auth_token (generate_auth_token store uid bs).fst uid bs'
        = generate_auth_token store uid bs := by
  constructor
  · intro r hr
    simp only [generate_auth_token, hr]
  · cases hfind : store.find? (fun x => x.user_id == uid && x.token_type == 1) with
    | some r =>
      have h1 : generate_auth_token store uid bs = (store, r.auth_token) := by
        simp only [generate_auth_token, hfind]
      rw [h1]
      simp only [generate_auth_token, hfind]
    | none =>
      have h1 : generate_auth_token store uid bs =
          (store ++ [⟨uid, hexlify bs, 1, datetime_max⟩], hexlify bs) := by
        simp only [generate_auth_token, hfind]
      rw [h1]
      have h2 : (store ++ [(⟨uid, hexlify bs, 1, datetime_max⟩ : RemoteAuthToken)]).find?
          (fun x => x.user_id == uid && x.token_type == 1)
          = some ⟨uid, hexlify bs, 1, datetime_max⟩ := by
        rw [find?_append_of_none _ _ _ hfind]
        exact List.find?_cons_of_pos _ (by simp)
      show generate_auth_token (store ++ [⟨uid, hexlify bs, 1, datetime_max⟩]) uid bs'
          = (store ++ [⟨uid, hexlify bs, 1, datetime_max⟩], hexlify bs)
      simp only [generate_auth_token, h2]

/-- C3 witness. -/
theorem generate_auth_token_idempotent_witness :
    generate_auth_token [⟨3, "ff", 1, 0⟩] 3 [0] = ([⟨3, "ff", 1, 0⟩], "ff") :=
  (generate_auth_token_idempotent [⟨3, "ff", 1, 0⟩] 3 [0] [1]).1
    ⟨3, "ff", 1, 0⟩ (by decide)

/-- C4: for a user with no existing type-1 token, issuance appends exactly
one new row whose token value is the hex encoding of the 16 random bytes —
a 32-character lowercase hexadecimal string — with `expiration` equal to
the maximum representable timestamp and `token_type = 1`. -/
theorem generate_auth_token_fresh (store : List RemoteAuthToken) (uid : Nat)
    (bs : List Nat)
    (hnone : store.find? (fun r => r.user_id == uid && r.token_type == 1) = none)
    (hlen : bs.length = 16) (hbytes : ∀ b ∈ bs, b < 256) :
    generate_auth_token store uid bs
      = (store ++ [⟨uid, hexlify bs, 1, datetime_max⟩], hexlify bs)
    ∧ (hexlify bs).length = 32
    ∧ ∀ c ∈ (hexlify bs).data, c ∈ lowerHexDigits := by
  refine ⟨by simp only [generate_auth_token, hnone], ?_, ?_⟩
  · have h1 : (hexlify bs).length = (hexChars bs).length := rfl
    rw [h1, hexChars_length, hlen]
  · intro c hc
    exact hexChars_mem_lowerHex bs hbytes c hc

/-- C4 witness. -/
theorem generate_auth_token_fresh_witness :
    generate_auth_token [] 42 sampleBytes
      = ([⟨42, hexlify sampleBytes, 1, datetime_max⟩], hexlify sampleBytes)
    ∧ (hexlify sampleBytes).length = 32 :=
  ⟨(generate_auth_token_fresh [] 42 sampleBytes rfl rfl (by decide)).1,
   (generate_auth_token_fresh [] 42 sampleBytes rfl rfl (by decide)).2.1⟩

/-- Issuance preserves the at-most-one-row-per-`(user_id, token_type)`
invariant: it inserts only when no matching row exists. -/
theorem atMostOnePerKey_generate (store : List RemoteAuthToken) (uid : Nat)
    (bs : List Nat) (h : atMostOnePerKey store) :
    atMostOnePerKey (generate_auth_token store uid bs).fst := by
  cases hfind : store.find? (fun r => r.user_id == uid && r.token_type == 1) with
  | some r =>
    have h1 : (generate_auth_token store uid bs).fst = store := by
      simp only [generate_auth_token, hfind]
    rw [h1]; exact h
  | none =>
    have h1 : (generate_auth_token store uid bs).fst
        = store ++ [⟨uid, hexlify bs, 1, datetime_max⟩] := by
      simp only [generate_auth_token, hfind]
    rw [h1]
    intro uid2 t2
    rw [List.countP_append]
    by_cases hm : uid2 = uid ∧ t2 = 1
    · have hz : store.countP (fun r => r.user_id == uid2 && r.token_type == t2) = 0 := by
        rw [List.countP_eq_zero]
        intro x hx hcontra
        simp only [Bool.and_eq_true, beq_iff_eq] at hcontra
        have hnone := List.find?_eq_none.1 hfind x hx
        apply hnone
        simp only [Bool.and_eq_true, beq_iff_eq]
        exact ⟨hm.1 ▸ hcontra.1, hm.2 ▸ hcontra.2⟩
      rw [hz]
      have hone : List.countP (fun r : RemoteAuthToken => r.user_id == uid2 && r.token_type == t2)
          [⟨uid, hexlify bs, 1, datetime_max⟩] ≤ 1 := by
        simpa using List.countP_le_length
          (fun r : RemoteAuthToken => r.user_id == uid2 && r.token_type == t2)
      omega
    · have hz : List.countP (fun r : RemoteAuthToken => r.user_id == uid2 && r.token_type == t2)
          [⟨uid, hexlify bs, 1, datetime_max⟩] = 0 := by
        rw [List.countP_eq_zero]
        intro x hx
        rw [List.mem_singleton] at hx
        subst hx
        intro hcontra
        simp only [Bool.and_eq_true, beq_iff_eq] at hcontra
        exact hm ⟨hcontra.1.symm, hcontra.2.symm⟩
      rw [hz]
      simpa using h uid2 t2

/-- Revocation preserves the at-most-one-row-per-`(user_id, token_type)`
invariant: it only removes rows. -/
theorem atMostOnePerKey_delete (store : List RemoteAuthToken) (uid : Nat)
    (h : atMostOnePerKey store) : atMostOnePerKey (delete_auth_token store uid) := by
  intro uid2 t2
  exact le_trans ((List.filter_sublist store).countP_le _) (h uid2 t2)

/-- C5: starting from a store with at most one row per
`(user_id, token_type)` pair, every sequence of issuance and revocation
operations preserves that invariant; in particular issuing for an
already-tokened user adds no duplicate row. -/
theorem store_invariant_preserved (store : List RemoteAuthToken)
    (ops : List StoreOp) (hinv : atMostOnePerKey store) :
    atMostOnePerKey (applyOps store ops) := by
  induction ops generalizing store with
  | nil => exact hinv
  | cons op t ih =>
    cases op with
    | issue uid bs => exact ih _ (atMostOnePerKey_generate store uid bs hinv)
    | revoke uid => exact ih _ (atMostOnePerKey_delete store uid hinv)

/-- C5 witness. -/
theorem store_invariant_preserved_witness :
    atMostOnePerKey (applyOps []
      [StoreOp.issue 1 [0], StoreOp.issue 1 [1], StoreOp.revoke 1]) :=
  store_invariant_preserved []
    [StoreOp.issue 1 [0], StoreOp.issue 1 [1], StoreOp.revoke 1]
    (by intro u t; simp [List.countP, List.countP.go])

/-- C6: revocation immediately invalidates the token: after
`delete_auth_token` for user `uid` (whose type-1 token has value T)
commits, a request stashing T resolves to no identity (under the
unique-token-values store invariant). -/
theorem delete_invalidates_token (store : List RemoteAuthToken) (uid : Nat)
    (T : String) (e : Nat) (g : List (String × String))
    (hmem : (⟨uid, T, 1, e⟩ : RemoteAuthToken) ∈ store)
    (huniq : uniqueTokenValues store)
    (hg : get_auth_token g = some T) :
    load_user_from_kobo_request (delete_auth_token store uid) g = (none, true) := by
  have hfind : (delete_auth_token store uid).find?
      (fun r => r.auth_token == T && r.token_type == 1) = none := by
    rw [List.find?_eq_none]
    intro x hx
    rw [delete_auth_token, List.mem_filter] at hx
    obtain ⟨hxs, hxp⟩ := hx
    intro hpx
    simp only [Bool.and_eq_true, beq_iff_eq] at hpx
    have hx_eq : x = (⟨uid, T, 1, e⟩ : RemoteAuthToken) :=
      huniq x hxs _ hmem hpx.1
    rw [hx_eq] at hxp
    simp at hxp
  simp only [load_user_from_kobo_request, hg, hfind]

/-- C6 witness. -/
theorem delete_invalidates_token_witness :
    load_user_from_kobo_request (delete_auth_token [⟨5, "t", 1, 0⟩] 5)
      [("auth_token", "t")] = (none, true) :=
  delete_invalidates_token [⟨5, "t", 1, 0⟩] 5 "t" 0 [("auth_token", "t")]
    (by decide) (by unfold uniqueTokenValues; decide) rfl

end KoboAuth
